import Mathlib

/-!
Verification of the pve_automate frontend against its specification.

The definitions below are shallow embeddings of the TypeScript sources:
status enumerations and entity records from the types module, the admin
console's per-row action gating, the request-detail polling interval, the
single-VM request form's zod validation schema and payload construction,
and the deployment form's VM-list operations.  Parts of the orchestration
backend that are not among the provided sources (the deployment status
derivation and the retry API client functions) are modelled from the
specification and are marked as such in their doc comments.
-/

/-- Status enumeration of a single VM request, from the frontend types
module (`RequestStatus` string-literal union). -/
inductive RequestStatus where
  | pending_approval
  | approved
  | rejected
  | provisioning
  | provisioning_failed
  | completed
deriving DecidableEq, Fintype, Repr

/-- Status enumeration of a deployment, from the frontend types module
(`DeploymentStatus` string-literal union). -/
inductive DeploymentStatus where
  | pending_approval
  | approved
  | rejected
  | provisioning
  | partially_completed
  | completed
  | failed
deriving DecidableEq, Fintype, Repr

/-- The wire string of a `RequestStatus` value, exactly the string
literals of the TypeScript union type. -/
def RequestStatus.key : RequestStatus → String
  | .pending_approval => "pending_approval"
  | .approved => "approved"
  | .rejected => "rejected"
  | .provisioning => "provisioning"
  | .provisioning_failed => "provisioning_failed"
  | .completed => "completed"

/-- The wire string of a `DeploymentStatus` value, exactly the string
literals of the TypeScript union type. -/
def DeploymentStatus.key : DeploymentStatus → String
  | .pending_approval => "pending_approval"
  | .approved => "approved"
  | .rejected => "rejected"
  | .provisioning => "provisioning"
  | .partially_completed => "partially_completed"
  | .completed => "completed"
  | .failed => "failed"

/-- The `statusConfig` record of the StatusBadge component, embedded as an
association list from wire status string to (label, className). -/
def statusConfig : List (String × String × String) :=
  [ ("pending_approval", ("Pending Approval", "bg-yellow-100 text-yellow-800")),
    ("approved", ("Approved", "bg-blue-100 text-blue-800")),
    ("rejected", ("Rejected", "bg-red-100 text-red-800")),
    ("provisioning", ("Provisioning", "bg-purple-100 text-purple-800")),
    ("provisioning_failed", ("Failed", "bg-red-100 text-red-800")),
    ("completed", ("Completed", "bg-green-100 text-green-800")) ]

/-- The lookup `statusConfig[status]` performed by the StatusBadge
component when rendering a badge. -/
def statusConfigLookup (k : String) : Option (String × String) :=
  (statusConfig.find? (fun e => e.1 == k)).map (fun e => e.2)

/-- JavaScript truthiness of a nullable number (`deployment_id`): `null`
and `0` are falsy, every other number is truthy. -/
def jsTruthyOptNum : Option Int → Bool
  | none => false
  | some n => n != 0

/-- Gate for the Retry button on a VM request row of the admin console:
`req.status === 'provisioning_failed' && !req.deployment_id`. -/
def requestRetryButtonShown (status : RequestStatus) (deploymentId : Option Int) : Bool :=
  status == .provisioning_failed && !(jsTruthyOptNum deploymentId)

/-- Gate for the Approve/Reject buttons on a VM request row of the admin
console: `req.status === 'pending_approval' && !req.deployment_id`. -/
def requestApproveRejectShown (status : RequestStatus) (deploymentId : Option Int) : Bool :=
  status == .pending_approval && !(jsTruthyOptNum deploymentId)

/-- Gate for the Retry button on a deployment row of the admin console:
`dep.status === 'failed' || dep.status === 'partially_completed'`. -/
def deploymentRetryButtonShown (status : DeploymentStatus) : Bool :=
  status == .failed || status == .partially_completed

/-- Gate for the Approve/Reject buttons on a deployment row of the admin
console: `dep.status === 'pending_approval'`. -/
def deploymentApproveRejectShown (status : DeploymentStatus) : Bool :=
  status == .pending_approval

/-- The `refetchInterval` callback of the `useVMRequest` query hook: 5000
milliseconds while the fetched status is provisioning, pending_approval or
approved, and `false` (no polling, embedded as `none`) otherwise,
including when no data has arrived yet. -/
def useVMRequestRefetchInterval (status : Option RequestStatus) : Option Nat :=
  match status with
  | some .provisioning => some 5000
  | some .pending_approval => some 5000
  | some .approved => some 5000
  | _ => none

/-- A request status is terminal when the request state machine of the
specification has no further scheduler-driven transition out of it:
completed, provisioning_failed and rejected.  (Retry out of
provisioning_failed is an explicit operator action, and the specification
itself calls provisioning_failed a terminal failed state.) -/
def isTerminalRequestStatus (s : RequestStatus) : Bool :=
  s == .completed || s == .provisioning_failed || s == .rejected

/-- The two entity kinds the client API acts on. -/
inductive EntityKind where
  | request
  | deployment
deriving DecidableEq, Fintype, Repr

/-- The three per-entity actions of the client API. -/
inductive ApiAction where
  | approve
  | reject
  | retry
deriving DecidableEq, Fintype, Repr

/-- An exported API client function that performs an action on one
entity: its export name, the entity kind and action, and the endpoint
path around the entity id. -/
structure ApiActionExport where
  name : String
  entity : EntityKind
  action : ApiAction
  urlPrefix : String
  urlSuffix : String
deriving DecidableEq, Repr

/-- The approve and reject client functions exported by the api client
module, one per entity kind, each posting to the listed endpoint. -/
def approveRejectApiExports : List ApiActionExport :=
  [ ⟨"approveVMRequest", .request, .approve, "/requests/", "/approve"⟩,
    ⟨"rejectVMRequest", .request, .reject, "/requests/", "/reject"⟩,
    ⟨"approveDeployment", .deployment, .approve, "/deployments/", "/approve"⟩,
    ⟨"rejectDeployment", .deployment, .reject, "/deployments/", "/reject"⟩ ]

/-- Modelled from the spec: the retry client functions for both entity
kinds (the exposed interface lists `retry(id)` for both entity kinds with
the contracts of the request and deployment state machines).  The admin
console imports retry mutation hooks for both kinds, but the revision of
the api client module defining the underlying functions is not among the
provided sources. -/
def retryApiExports : List ApiActionExport :=
  [ ⟨"retryVMRequest", .request, .retry, "/requests/", "/retry"⟩,
    ⟨"retryDeployment", .deployment, .retry, "/deployments/", "/retry"⟩ ]

/-- The full per-entity action surface of the client API layer. -/
def apiActionExports : List ApiActionExport :=
  approveRejectApiExports ++ retryApiExports

/-- A VM request's per-child settled status projected to the vocabulary
of the deployment derivation: still provisioning, completed, or failed
(`provisioning_failed` on the child). -/
def childIsProvisioning (s : RequestStatus) : Bool := s == .provisioning

/-- Modelled from the spec: the deployment status derivation of the
deployment coordinator (if all children completed then completed; if all
children failed then failed; a mix of completed and failed with no child
still provisioning gives partially_completed; while any child is still
provisioning the deployment stays provisioning).  The backend module
computing this is not among the provided sources. -/
def deriveDeploymentStatus (children : List RequestStatus) : DeploymentStatus :=
  if children.any childIsProvisioning then .provisioning
  else if children.all (fun c => c == .completed) then .completed
  else if children.all (fun c => c == .provisioning_failed) then .failed
  else .partially_completed

/-- One VM entry row of the deployment form: eight string-valued input
fields, exactly the `VMEntry` interface. -/
structure VMEntry where
  vm_name : String
  description : String
  os_template : String
  tshirt_size : String
  subnet_id : String
  cpu_cores : String
  ram_mb : String
  disk_gb : String
deriving DecidableEq, Repr

/-- The `emptyVM` constant of the deployment form: every field blank. -/
def emptyVM : VMEntry :=
  { vm_name := "", description := "", os_template := "", tshirt_size := ""
    subnet_id := "", cpu_cores := "", ram_mb := "", disk_gb := "" }

/-- A field name of a `VMEntry`, the `keyof VMEntry` type. -/
inductive VMField where
  | vm_name
  | description
  | os_template
  | tshirt_size
  | subnet_id
  | cpu_cores
  | ram_mb
  | disk_gb
deriving DecidableEq, Repr

/-- Functional update of one field of a VM entry, the spread
`\x7b ...vm, [field]: value \x7d`. -/
def setVMField (vm : VMEntry) : VMField → String → VMEntry
  | .vm_name, v => { vm with vm_name := v }
  | .description, v => { vm with description := v }
  | .os_template, v => { vm with os_template := v }
  | .tshirt_size, v => { vm with tshirt_size := v }
  | .subnet_id, v => { vm with subnet_id := v }
  | .cpu_cores, v => { vm with cpu_cores := v }
  | .ram_mb, v => { vm with ram_mb := v }
  | .disk_gb, v => { vm with disk_gb := v }

/-- The deployment form's `addVM` handler: append a blank entry only
while fewer than 20 entries exist. -/
def addVM (vms : List VMEntry) : List VMEntry :=
  if vms.length < 20 then vms ++ [emptyVM] else vms

/-- The deployment form's `removeVM` handler: drop the entry at the given
position only while more than one entry exists (the JS filter keeps every
index other than the given one). -/
def removeVM (vms : List VMEntry) (index : Nat) : List VMEntry :=
  if vms.length > 1 then vms.eraseIdx index else vms

/-- The deployment form's `updateVM` handler: replace the entry at the
given position by a one-field update of itself.  This is the in-bounds
behaviour of the JS element assignment; the component attaches the
handler only to rendered entries, whose indices are in bounds, and an
out-of-bounds index leaves the list unchanged here. -/
def updateVM (vms : List VMEntry) (index : Nat) (field : VMField) (value : String) : List VMEntry :=
  match vms.get? index with
  | some vm => vms.set index (setVMField vm field value)
  | none => vms

/-- One user interaction with the deployment form's VM list. -/
inductive DeployFormOp where
  | add
  | remove (index : Nat)
  | update (index : Nat) (field : VMField) (value : String)

/-- Apply one VM-list operation of the deployment form. -/
def stepDeployForm (vms : List VMEntry) : DeployFormOp → List VMEntry
  | .add => addVM vms
  | .remove i => removeVM vms i
  | .update i f v => updateVM vms i f v

/-- The deployment form's initial VM list: a single blank entry. -/
def deployFormInitialVMs : List VMEntry := [emptyVM]

/-- The VM list reached from the initial one-entry list by a sequence of
form operations. -/
def runDeployFormOps (ops : List DeployFormOp) : List VMEntry :=
  ops.foldl stepDeployForm deployFormInitialVMs

/-- ASCII letter test, the `a-zA-Z` character ranges of the form's
vm_name regular expression. -/
def isAsciiAlpha (c : Char) : Bool :=
  (('a' ≤ c) && (c ≤ 'z')) || (('A' ≤ c) && (c ≤ 'Z'))

/-- ASCII digit test, the `0-9` character range. -/
def isAsciiDigit (c : Char) : Bool :=
  ('0' ≤ c) && (c ≤ '9')

/-- Letter-or-digit test, the `a-zA-Z0-9` character class. -/
def isAlnumChar (c : Char) : Bool :=
  isAsciiAlpha c || isAsciiDigit c

/-- Character class of the vm_name regular expression's tail:
`a-zA-Z0-9-`. -/
def isVmNameChar (c : Char) : Bool :=
  isAlnumChar c || c == '-'

/-- The anchored vm_name regular expression of the request form schema:
one leading letter or digit followed by letters, digits or hyphens. -/
def vmNameRegexOk (s : String) : Bool :=
  match s.data with
  | [] => false
  | c :: rest => isAlnumChar c && rest.all isVmNameChar

/-- The full zod chain on `vm_name`: non-empty, at most 63 characters,
and matching the anchored DNS-safe regular expression. -/
def vmNameSchemaOk (s : String) : Bool :=
  decide (1 ≤ s.length) && decide (s.length ≤ 63) && vmNameRegexOk s

/-- Split a character list on a separator character, the behaviour of the
JS string split underlying the email check; never returns an empty outer
list. -/
def splitOnChar (sep : Char) : List Char → List (List Char)
  | [] => [[]]
  | c :: rest =>
    let r := splitOnChar sep rest
    if c == sep then [] :: r
    else
      match r with
      | [] => [[c]]
      | h :: t => (c :: h) :: t

/-- The apostrophe character, written by code point to keep the source
free of quote-escape sequences. -/
def apostropheChar : Char := Char.ofNat 39

/-- Character class of the zod email local part (all but the last
character): letters, digits, underscore, apostrophe, plus, hyphen,
dot. -/
def emailLocalChar (c : Char) : Bool :=
  isAlnumChar c || c == '_' || c == apostropheChar || c == '+' || c == '-' || c == '.'

/-- Character class of the last character of the zod email local part:
letters, digits, underscore, plus, hyphen (no dot). -/
def emailLocalLastChar (c : Char) : Bool :=
  isAlnumChar c || c == '_' || c == '+' || c == '-'

/-- The zod email local part: a possibly empty run of local characters
ended by a non-dot local character. -/
def emailLocalOk : List Char → Bool
  | [] => false
  | [c] => emailLocalLastChar c
  | c :: rest => emailLocalChar c && emailLocalOk rest

/-- One non-final domain label of the zod email pattern: a letter or
digit followed by letters, digits or hyphens. -/
def emailLabelOk : List Char → Bool
  | [] => false
  | c :: rest => isAlnumChar c && rest.all (fun d => isAlnumChar d || d == '-')

/-- The final domain label of the zod email pattern: at least two
letters. -/
def emailTldOk (l : List Char) : Bool :=
  decide (2 ≤ l.length) && l.all isAsciiAlpha

/-- The zod email domain: one or more labels, a dot between each, ending
in a final label of at least two letters. -/
def emailDomainOk (domain : List Char) : Bool :=
  match (splitOnChar '.' domain).reverse with
  | tld :: l :: ls => emailTldOk tld && (l :: ls).all emailLabelOk
  | _ => false

/-- No two consecutive dots anywhere, the negative lookahead of the zod
email pattern. -/
def noDoubleDot : List Char → Bool
  | a :: b :: rest => !(a == '.' && b == '.') && noDoubleDot (b :: rest)
  | _ => true

/-- The string does not start with a dot, the other negative lookahead of
the zod email pattern. -/
def notStartsWithDot (l : List Char) : Bool :=
  match l with
  | c :: _ => !(c == '.')
  | [] => true

/-- The zod `.email()` validator: the case-insensitive anchored pattern
of zod v3 (no leading dot, no double dot, a local part, one at-sign, a
dotted domain with an alphabetic final label of length at least two). -/
def zodEmailOk (s : String) : Bool :=
  notStartsWithDot s.data && noDoubleDot s.data &&
    (match splitOnChar '@' s.data with
     | [localPart, domainPart] => emailLocalOk localPart && emailDomainOk domainPart
     | _ => false)

/-- The data produced by a successful parse of the request form schema:
the object fields, with the three optional sizing numbers already
coerced to integers. -/
structure FormData where
  vm_name : String
  description : Option String
  requestor_name : String
  requestor_email : String
  workload_type : String
  os_template : String
  tshirt_size : String
  cpu_cores : Option Int
  ram_mb : Option Int
  disk_gb : Option Int
deriving DecidableEq, Repr

/-- The tshirt_size alternation regular expression: exactly one of the
six size names. -/
def tshirtSizeOk (s : String) : Bool :=
  s == "XS" || s == "S" || s == "M" || s == "L" || s == "XL" || s == "Custom"

/-- The optional coerced cpu_cores field: when present, an integer
between 1 and 128. -/
def cpuCoresOk : Option Int → Bool
  | none => true
  | some n => decide (1 ≤ n) && decide (n ≤ 128)

/-- The optional coerced ram_mb field: when present, an integer between
512 and 524288. -/
def ramMbOk : Option Int → Bool
  | none => true
  | some n => decide (512 ≤ n) && decide (n ≤ 524288)

/-- The optional coerced disk_gb field: when present, an integer between
8 and 4096. -/
def diskGbOk : Option Int → Bool
  | none => true
  | some n => decide (8 ≤ n) && decide (n ≤ 4096)

/-- The schema's `.refine` step: a Custom size requires all three custom
sizing values to be present. -/
def customSizeRefineOk (d : FormData) : Bool :=
  if d.tshirt_size == "Custom" then
    d.cpu_cores.isSome && d.ram_mb.isSome && d.disk_gb.isSome
  else true

/-- The whole request form schema: the conjunction of every per-field zod
check and the refine step. -/
def requestFormSchemaOk (d : FormData) : Bool :=
  vmNameSchemaOk d.vm_name &&
  decide (1 ≤ d.requestor_name.length) &&
  zodEmailOk d.requestor_email &&
  decide (1 ≤ d.workload_type.length) &&
  decide (1 ≤ d.os_template.length) &&
  tshirtSizeOk d.tshirt_size &&
  cpuCoresOk d.cpu_cores &&
  ramMbOk d.ram_mb &&
  diskGbOk d.disk_gb &&
  customSizeRefineOk d

/-- The create-request payload sent by the form's submit handler.  The
component state `selectedSubnet` holds either the empty string or the
decimal string of a chosen subnet id, embedded here as an optional id. -/
structure CreateVMRequestPayload where
  vm_name : String
  description : Option String
  requestor_name : String
  requestor_email : String
  workload_type : String
  os_template : String
  tshirt_size : String
  subnet_id : Option Nat
  cpu_cores : Option Int
  ram_mb : Option Int
  disk_gb : Option Int
deriving DecidableEq, Repr

/-- The submit handler's payload construction: the validated fields, the
subnet id when one is selected, and the three sizing values exactly when
the selected size is Custom. -/
def buildCreateVMRequestPayload (selectedSubnet : Option Nat) (d : FormData) :
    CreateVMRequestPayload :=
  { vm_name := d.vm_name
    description := d.description
    requestor_name := d.requestor_name
    requestor_email := d.requestor_email
    workload_type := d.workload_type
    os_template := d.os_template
    tshirt_size := d.tshirt_size
    subnet_id := selectedSubnet
    cpu_cores := if d.tshirt_size == "Custom" then d.cpu_cores else none
    ram_mb := if d.tshirt_size == "Custom" then d.ram_mb else none
    disk_gb := if d.tshirt_size == "Custom" then d.disk_gb else none }

/-- A concrete schema-valid Custom-size form submission, used as the
evaluation point of the payload theorem. -/
def sampleCustomForm : FormData :=
  { vm_name := "web-01"
    description := none
    requestor_name := "Alex"
    requestor_email := "alex@example.com"
    workload_type := "general"
    os_template := "ubuntu-22"
    tshirt_size := "Custom"
    cpu_cores := some 4
    ram_mb := some 8192
    disk_gb := some 256 }

/-- C2: the claim states that every `RequestStatus` value is also a
`DeploymentStatus` value.  This is false: `provisioning_failed` is a
request status but no deployment status carries that wire string. -/
theorem requestStatus_not_subset_of_deploymentStatus :
    ¬ ∃ d : DeploymentStatus,
      DeploymentStatus.key d = RequestStatus.key RequestStatus.provisioning_failed := by
  decide

/-- C2 (amended): every `RequestStatus` value except `provisioning_failed`
is also a `DeploymentStatus` value (same wire string); deployments replace
`provisioning_failed` by `failed` / `partially_completed`. -/
theorem requestStatus_mostly_subset_of_deploymentStatus
    (r : RequestStatus) (h : r ≠ RequestStatus.provisioning_failed) :
    ∃ d : DeploymentStatus, DeploymentStatus.key d = RequestStatus.key r := by
  cases r with
  | pending_approval => exact ⟨.pending_approval, rfl⟩
  | approved => exact ⟨.approved, rfl⟩
  | rejected => exact ⟨.rejected, rfl⟩
  | provisioning => exact ⟨.provisioning, rfl⟩
  | provisioning_failed => exact absurd rfl h
  | completed => exact ⟨.completed, rfl⟩

/-- Witness for the amended C2 theorem at the concrete status
`completed`. -/
theorem requestStatus_mostly_subset_witness :
    ∃ d : DeploymentStatus,
      DeploymentStatus.key d = RequestStatus.key RequestStatus.completed :=
  requestStatus_mostly_subset_of_deploymentStatus RequestStatus.completed (by decide)

/-- C5: a deployment row of the admin console offers Retry exactly when
its status is failed or partially_completed, and offers Approve/Reject
exactly when its status is pending_approval. -/
theorem deployment_row_action_gating (s : DeploymentStatus) :
    (deploymentRetryButtonShown s = true ↔
      (s = DeploymentStatus.failed ∨ s = DeploymentStatus.partially_completed)) ∧
    (deploymentApproveRejectShown s = true ↔ s = DeploymentStatus.pending_approval) := by
  cases s <;> simp [deploymentRetryButtonShown, deploymentApproveRejectShown]

/-- C9: the request-detail query polls every 5000 ms exactly while the
request status is non-terminal, and returns no interval (polling stops)
exactly when the status is terminal. -/
theorem vmRequest_polling_iff_nonterminal (s : RequestStatus) :
    (useVMRequestRefetchInterval (some s) = some 5000 ↔ isTerminalRequestStatus s = false) ∧
    (useVMRequestRefetchInterval (some s) = none ↔ isTerminalRequestStatus s = true) := by
  cases s <;> simp [useVMRequestRefetchInterval, isTerminalRequestStatus]

/-- C10: the StatusBadge `statusConfig` lookup is defined for every value
of the request status enumeration, so rendering a badge never reads an
undefined entry. -/
theorem statusConfig_total_over_requestStatus (s : RequestStatus) :
    (statusConfigLookup s.key).isSome = true := by
  cases s <;> rfl

/-- C3: for both entity kinds and each of the three actions (approve,
reject, retry) the client API layer exports a function performing that
action; the retry pair is modelled from the spec, the rest comes from the
api client module. -/
theorem api_surface_covers_all_actions (k : EntityKind) (a : ApiAction) :
    ∃ e ∈ apiActionExports, e.entity = k ∧ e.action = a := by
  cases k <;> cases a <;> decide

/-- C4 (counterexample): the claim "Retry is offered iff the status is
provisioning_failed and deployment_id is null" fails on the code at
deployment_id = 0: the admin console tests JavaScript falsiness of
`deployment_id`, so a provisioning_failed request with deployment_id 0 is
offered Retry although its deployment_id is not null. -/
theorem request_retry_gating_not_null_test :
    ¬ (requestRetryButtonShown RequestStatus.provisioning_failed (some 0) = true ↔
        (RequestStatus.provisioning_failed = RequestStatus.provisioning_failed ∧
          (some 0 : Option Int) = none)) := by
  decide

/-- C4 (amended): a VM request row of the admin console offers Retry
exactly when the status is provisioning_failed and the deployment_id is
null or 0 (the code tests JavaScript falsiness of `deployment_id` rather
than null specifically); in particular a request with a nonzero parent
deployment id is never individually retriable. -/
theorem request_retry_gating (st : RequestStatus) (did : Option Int) :
    requestRetryButtonShown st did = true ↔
      (st = RequestStatus.provisioning_failed ∧ (did = none ∨ did = some 0)) := by
  cases did with
  | none =>
    cases st <;> simp [requestRetryButtonShown, jsTruthyOptNum]
  | some n =>
    cases st <;> simp [requestRetryButtonShown, jsTruthyOptNum]

/-- C1: for a deployment whose children have settled, the derived status
is the §4.2 function of the children's statuses: all completed gives
completed, all failed gives failed, a mix of completed and failed with
none provisioning gives partially_completed, and any child still
provisioning keeps the deployment provisioning.  The derivation is
modelled from the spec (the backend is not among the provided
sources). -/
theorem deployment_status_derivation (children : List RequestStatus)
    (hne : children ≠ []) :
    ((∀ c ∈ children, c = RequestStatus.completed) →
      deriveDeploymentStatus children = DeploymentStatus.completed) ∧
    ((∀ c ∈ children, c = RequestStatus.provisioning_failed) →
      deriveDeploymentStatus children = DeploymentStatus.failed) ∧
    ((∀ c ∈ children, c = RequestStatus.completed ∨ c = RequestStatus.provisioning_failed) →
      (∃ c ∈ children, c = RequestStatus.completed) →
      (∃ c ∈ children, c = RequestStatus.provisioning_failed) →
      deriveDeploymentStatus children = DeploymentStatus.partially_completed) ∧
    ((∃ c ∈ children, c = RequestStatus.provisioning) →
      deriveDeploymentStatus children = DeploymentStatus.provisioning) := by
  refine ⟨?_, ?_, ?_, ?_⟩
  · intro hall
    have hnotprov : children.any childIsProvisioning = false := by
      simp only [List.any_eq_false]
      intro c hc
      rw [hall c hc]
      decide
    have hcomp : children.all (fun c => c == RequestStatus.completed) = true := by
      simp only [List.all_eq_true]
      intro c hc
      rw [hall c hc]
      decide
    simp [deriveDeploymentStatus, hnotprov, hcomp]
  · intro hall
    have hnotprov : children.any childIsProvisioning = false := by
      simp only [List.any_eq_false]
      intro c hc
      rw [hall c hc]
      decide
    have hfail : children.all (fun c => c == RequestStatus.provisioning_failed) = true := by
      simp only [List.all_eq_true]
      intro c hc
      rw [hall c hc]
      decide
    have hnotcomp : children.all (fun c => c == RequestStatus.completed) = false := by
      cases children with
      | nil => exact absurd rfl hne
      | cons c cs =>
        have hc : c = RequestStatus.provisioning_failed := hall c (List.mem_cons_self c cs)
        simp [hc]
    simp [deriveDeploymentStatus, hnotprov, hnotcomp, hfail]
  · intro hall hcomp hfail
    obtain ⟨c₁, hc₁, hc₁comp⟩ := hcomp
    obtain ⟨c₂, hc₂, hc₂fail⟩ := hfail
    have hnotprov : children.any childIsProvisioning = false := by
      simp only [List.any_eq_false]
      intro c hc
      rcases hall c hc with h | h <;> rw [h] <;> decide
    have hnotallcomp : children.all (fun c => c == RequestStatus.completed) = false := by
      simp only [List.all_eq_false]
      exact ⟨c₂, hc₂, by simp [hc₂fail]⟩
    have hnotallfail : children.all (fun c => c == RequestStatus.provisioning_failed) = false := by
      simp only [List.all_eq_false]
      exact ⟨c₁, hc₁, by simp [hc₁comp]⟩
    simp [deriveDeploymentStatus, hnotprov, hnotallcomp, hnotallfail]
  · intro hprov
    obtain ⟨c, hc, hcprov⟩ := hprov
    have hany : children.any childIsProvisioning = true := by
      simp only [List.any_eq_true]
      exact ⟨c, hc, by simp [hcprov, childIsProvisioning]⟩
    simp [deriveDeploymentStatus, hany]

/-- Witness for the C1 theorem: applied to the two-child list
[completed, provisioning_failed], whose settled mix derives to
partially_completed. -/
theorem deployment_status_derivation_witness :
    deriveDeploymentStatus
        [RequestStatus.completed, RequestStatus.provisioning_failed] =
      DeploymentStatus.partially_completed :=
  (deployment_status_derivation
      [RequestStatus.completed, RequestStatus.provisioning_failed]
      (by decide)).2.2.1
    (by decide)
    ⟨RequestStatus.completed, by decide, rfl⟩
    ⟨RequestStatus.provisioning_failed, by decide, rfl⟩

/-- Dropping the element at one position removes at most one element and
never adds any. -/
theorem eraseIdx_length_bounds {α : Type} (l : List α) (i : Nat) :
    l.length - 1 ≤ (l.eraseIdx i).length ∧ (l.eraseIdx i).length ≤ l.length := by
  induction l generalizing i with
  | nil => simp [List.eraseIdx]
  | cons a as ih =>
    cases i with
    | zero => simp [List.eraseIdx]
    | succ j =>
      simp only [List.eraseIdx, List.length_cons]
      obtain ⟨g1, g2⟩ := ih j
      omega

/-- One deployment-form operation keeps the VM list length between 1 and
20. -/
theorem stepDeployForm_length_bounds (vms : List VMEntry) (op : DeployFormOp)
    (h1 : 1 ≤ vms.length) (h2 : vms.length ≤ 20) :
    1 ≤ (stepDeployForm vms op).length ∧ (stepDeployForm vms op).length ≤ 20 := by
  cases op with
  | add =>
    simp only [stepDeployForm, addVM]
    split
    · rename_i hlt
      simp only [List.length_append, List.length_singleton]
      omega
    · exact ⟨h1, h2⟩
  | remove i =>
    simp only [stepDeployForm, removeVM]
    split
    · rename_i hgt
      obtain ⟨g1, g2⟩ := eraseIdx_length_bounds vms i
      omega
    · exact ⟨h1, h2⟩
  | update i f v =>
    simp only [stepDeployForm, updateVM]
    cases hval : vms.get? i with
    | none => exact ⟨h1, h2⟩
    | some vm =>
      simp only [List.length_set]
      exact ⟨h1, h2⟩

/-- Folding deployment-form operations over a VM list keeps the length
between 1 and 20. -/
theorem foldl_stepDeployForm_bounds (ops : List DeployFormOp) (vms : List VMEntry)
    (h1 : 1 ≤ vms.length) (h2 : vms.length ≤ 20) :
    1 ≤ (ops.foldl stepDeployForm vms).length ∧
      (ops.foldl stepDeployForm vms).length ≤ 20 := by
  induction ops generalizing vms with
  | nil => exact ⟨h1, h2⟩
  | cons op rest ih =>
    simp only [List.foldl_cons]
    obtain ⟨g1, g2⟩ := stepDeployForm_length_bounds vms op h1 h2
    exact ih _ g1 g2

/-- C6: from the deployment form's initial one-entry VM list, every
sequence of addVM, removeVM and updateVM operations keeps the list length
between 1 and 20; addVM on a 20-entry list and removeVM on a one-entry
list leave the list unchanged. -/
theorem deployment_form_vm_list_invariant :
    (∀ ops : List DeployFormOp,
      1 ≤ (runDeployFormOps ops).length ∧ (runDeployFormOps ops).length ≤ 20) ∧
    (∀ vms : List VMEntry, vms.length = 20 → addVM vms = vms) ∧
    (∀ (vms : List VMEntry) (i : Nat), vms.length = 1 → removeVM vms i = vms) := by
  refine ⟨?_, ?_, ?_⟩
  · intro ops
    exact foldl_stepDeployForm_bounds ops deployFormInitialVMs (by decide) (by decide)
  · intro vms h
    simp [addVM, h]
  · intro vms i h
    simp [removeVM, h]

/-- Witness for the C6 theorem: an add-then-remove run stays within
bounds, a full 20-entry list is unchanged by addVM, and the one-entry
initial list is unchanged by removeVM. -/
theorem deployment_form_vm_list_invariant_witness :
    (1 ≤ (runDeployFormOps [DeployFormOp.add, DeployFormOp.remove 0]).length ∧
      (runDeployFormOps [DeployFormOp.add, DeployFormOp.remove 0]).length ≤ 20) ∧
    addVM (List.replicate 20 emptyVM) = List.replicate 20 emptyVM ∧
    removeVM [emptyVM] 0 = [emptyVM] :=
  ⟨deployment_form_vm_list_invariant.1 [DeployFormOp.add, DeployFormOp.remove 0],
   deployment_form_vm_list_invariant.2.1 (List.replicate 20 emptyVM) (by simp),
   deployment_form_vm_list_invariant.2.2 [emptyVM] 0 rfl⟩

/-- C7: the request form schema accepts a vm_name exactly when it is
non-empty, at most 63 characters, begins with a letter or digit, and
contains only letters, digits and hyphens. -/
theorem vm_name_validation (s : String) :
    vmNameSchemaOk s = true ↔
      (s ≠ "" ∧ s.length ≤ 63 ∧
        (∃ c cs, s.data = c :: cs ∧ isAlnumChar c = true) ∧
        (∀ c ∈ s.data, isAlnumChar c = true ∨ c = '-')) := by
  unfold vmNameSchemaOk vmNameRegexOk
  constructor
  · intro h
    simp only [Bool.and_eq_true, decide_eq_true_eq] at h
    obtain ⟨⟨h1, h63⟩, hre⟩ := h
    cases hd : s.data with
    | nil =>
      rw [hd] at hre
      simp at hre
    | cons c cs =>
      rw [hd] at hre
      simp only [Bool.and_eq_true, List.all_eq_true] at hre
      obtain ⟨hc, hall⟩ := hre
      refine ⟨?_, h63, ⟨c, cs, rfl, hc⟩, ?_⟩
      · intro hs
        rw [hs] at hd
        simp at hd
      · intro x hx
        rcases List.mem_cons.mp hx with rfl | hmem
        · exact Or.inl hc
        · have hvc := hall x hmem
          unfold isVmNameChar at hvc
          simp only [Bool.or_eq_true, beq_iff_eq] at hvc
          exact hvc
  · rintro ⟨hne, h63, ⟨c, cs, hd, hc⟩, hall⟩
    have hlen : s.length = cs.length + 1 := by
      have hdl : s.length = s.data.length := rfl
      rw [hdl, hd]
      rfl
    simp only [Bool.and_eq_true, decide_eq_true_eq]
    refine ⟨⟨by omega, h63⟩, ?_⟩
    rw [hd]
    simp only [Bool.and_eq_true, List.all_eq_true]
    refine ⟨hc, ?_⟩
    intro x hx
    have hx' : x ∈ s.data := by
      rw [hd]
      exact List.mem_cons_of_mem _ hx
    unfold isVmNameChar
    rcases hall x hx' with h | h
    · simp [h]
    · simp [h]

/-- C8: on schema-valid form data, the submitted payload carries the
three explicit sizing values exactly when the selected size is Custom,
and the schema rejects any Custom submission missing one of the three
values. -/
theorem custom_size_payload_and_schema :
    (∀ (sub : Option Nat) (d : FormData), requestFormSchemaOk d = true →
      (((buildCreateVMRequestPayload sub d).cpu_cores.isSome = true ∧
        (buildCreateVMRequestPayload sub d).ram_mb.isSome = true ∧
        (buildCreateVMRequestPayload sub d).disk_gb.isSome = true) ↔
        d.tshirt_size = "Custom")) ∧
    (∀ d : FormData, d.tshirt_size = "Custom" →
      (d.cpu_cores = none ∨ d.ram_mb = none ∨ d.disk_gb = none) →
      requestFormSchemaOk d = false) := by
  constructor
  · intro sub d h
    have hrefine : customSizeRefineOk d = true := by
      simp only [requestFormSchemaOk, Bool.and_eq_true] at h
      exact h.2
    by_cases hc : d.tshirt_size = "Custom"
    · have hsizes : (d.cpu_cores.isSome = true ∧ d.ram_mb.isSome = true) ∧
          d.disk_gb.isSome = true := by
        simpa [customSizeRefineOk, hc] using hrefine
      obtain ⟨⟨hcpu, hram⟩, hdisk⟩ := hsizes
      constructor
      · intro _
        exact hc
      · intro _
        simp [buildCreateVMRequestPayload, hc, hcpu, hram, hdisk]
    · constructor
      · intro hsome
        obtain ⟨h1, _, _⟩ := hsome
        simp [buildCreateVMRequestPayload, hc] at h1
      · intro hcontra
        exact absurd hcontra hc
  · intro d hsz hmiss
    have hfalse : customSizeRefineOk d = false := by
      rcases hmiss with h | h | h <;> simp [customSizeRefineOk, hsz, h]
    simp [requestFormSchemaOk, hfalse]

/-- Witness for the C8 theorem: a concrete schema-valid Custom submission
carries all three sizing values in its payload, and the same submission
with cpu_cores removed is rejected by the schema. -/
theorem custom_size_payload_and_schema_witness :
    ((buildCreateVMRequestPayload none sampleCustomForm).cpu_cores.isSome = true ∧
      (buildCreateVMRequestPayload none sampleCustomForm).ram_mb.isSome = true ∧
      (buildCreateVMRequestPayload none sampleCustomForm).disk_gb.isSome = true) ∧
    requestFormSchemaOk { sampleCustomForm with cpu_cores := none } = false :=
  ⟨(custom_size_payload_and_schema.1 none sampleCustomForm (by decide)).mpr rfl,
   custom_size_payload_and_schema.2 { sampleCustomForm with cpu_cores := none }
     rfl (Or.inl rfl)⟩
